import Mathlib

/-!
# Session-aware API client of `src/App.jsx`

A shallow embedding of the four pieces of `src/src/App.jsx` that carry the
contract of the client:

* `apiFetch` (lines 73-88), the transport;
* `AuthProvider` (lines 20-70): the `tokens` state with its initial load, `login`,
  `logout`, `getAccessToken`;
* `useApi` (lines 91-107): `authedFetch`.

JavaScript values are modelled by `JVal` (the values `JSON.parse` can produce), the value
`undefined` by `none` in an `Option JVal`.  The platform functions the code calls
(`fetch`, `JSON.stringify`, `JSON.parse`, `Response.json`) are parameters: `Net` answers
a request with a `Response`, `Env` carries the JSON codec and the configured base URL.

Numbers are integers: the only numbers the program inspects are HTTP status codes.
The text JavaScript gives for a number is left to the platform (`Env.numberToString`).
An object is the list of its own properties with their values.
-/

namespace KbRag

/-! ## JavaScript values -/

/-- The values `JSON.parse` and `Response.json` produce. -/
inductive JVal where
  | null : JVal
  | bool (b : Bool) : JVal
  | num (n : Int) : JVal
  | str (s : String) : JVal
  | arr (items : List JVal) : JVal
  | obj (fields : List (String × JVal)) : JVal

/-- JavaScript `ToBoolean` on a value. -/
def JVal.truthy : JVal → Bool
  | .null => false
  | .bool b => b
  | .num n => n != 0
  | .str s => s != ""
  | .arr _ => true
  | .obj _ => true

/-- JavaScript `ToBoolean` on a value that may be `undefined` (`none`). -/
def truthy : Option JVal → Bool
  | none => false
  | some v => v.truthy

/-- Own property read on a property list: the value stored under `key`, if any. -/
def lookupField {α : Type} : List (String × α) → String → Option α
  | [], _ => none
  | (k, v) :: rest, key => if k = key then some v else lookupField rest key

/-- Property write on a property list, as an object literal or a spread does it: an
existing key keeps its place and takes the new value, a new key is appended. -/
def setField {α : Type} : List (String × α) → String → α → List (String × α)
  | [], key, v => [(key, v)]
  | (k, w) :: rest, key, v =>
    if k = key then (k, v) :: rest else (k, w) :: setField rest key v

/-- Copy of the properties `props` onto `base`, in order: the `...props` of an object
literal whose earlier members are `base`. -/
def spreadInto {α : Type} (base props : List (String × α)) : List (String × α) :=
  props.foldl (fun acc kv => setField acc kv.1 kv.2) base

/-- The own enumerable properties a spread `...v` copies from the value `v`: the fields
of an object, the indexed elements of an array, the indexed characters of a string
(one per character, where JavaScript has one per UTF-16 code unit), nothing for `null`,
a boolean or a number. -/
def JVal.ownProps : JVal → List (String × JVal)
  | .obj fields => fields
  | .arr items => items.enum.map (fun iv => (toString iv.1, iv.2))
  | .str s => s.data.enum.map (fun ic => (toString ic.1, JVal.str (String.singleton ic.2)))
  | _ => []

/-- The read `v?.key` for the keys this program reads (`error`, `status`, `accessToken`,
`refreshToken`): the field of an object, `undefined` on `null` and on every value that
is not an object (arrays, strings, numbers and booleans have no such property). -/
def JVal.getField : JVal → String → Option JVal
  | .obj fields, key => lookupField fields key
  | _, _ => none

/-- What a JavaScript operation throws. -/
inductive Thrown where
  | typeError (msg : String) : Thrown

/-- The read `v.key` without optional chaining: as `JVal.getField`, except that reading a
property of `null` throws a `TypeError`. -/
def JVal.getProp (v : JVal) (key : String) : Except Thrown (Option JVal) :=
  match v with
  | .null => .error (.typeError ("Cannot read properties of null (reading " ++ key ++ ")"))
  | _ => .ok (v.getField key)

/-- The platform outside the network: the build-time variable `VITE_API_BASE`, the JSON
codec (`parse` gives `none` where `JSON.parse` throws), and `numberToString`, the text
JavaScript gives for a number (`Number::toString`). -/
structure Env where
  viteApiBase : Option String
  stringify : JVal → String
  parse : String → Option JVal
  numberToString : Int → String

mutual
/-- JavaScript `ToString`, as a template literal applies it to a value; the text of a
number is the one of the platform. -/
def JVal.toJsString (env : Env) : JVal → String
  | .null => "null"
  | .bool b => if b then "true" else "false"
  | .num n => env.numberToString n
  | .str s => s
  | .arr items => joinItems env items
  | .obj _ => "[object Object]"
/-- The call `Array.prototype.join` with the separator `,`: `null` elements give the empty
string. -/
def joinItems (env : Env) : List JVal → String
  | [] => ""
  | .null :: [] => ""
  | x :: [] => x.toJsString env
  | .null :: y :: rest => "," ++ joinItems env (y :: rest)
  | x :: y :: rest => x.toJsString env ++ "," ++ joinItems env (y :: rest)
end

/-- JavaScript `ToString` on a value that may be `undefined`. -/
def toJsString (env : Env) : Option JVal → String
  | none => "undefined"
  | some v => v.toJsString env

/-! ## Platform -/

/-- The second argument of `apiFetch` and `authedFetch`: the `method`, `headers` and `body`
members of the options object (`none` = the member is not given). -/
structure Opts where
  method : Option String
  headers : Option (List (String × String))
  body : Option String

/-- The call `fetch(url, { ...opts, headers })` as the network sees it. -/
structure Request where
  url : String
  method : Option String
  headers : List (String × String)
  body : Option String

/-- What `fetch` settles to: a rejection with the error `err` (of which the code reads
`err.message`), or an HTTP response with its status and what `res.json()` gives for its
body (`none` = `res.json()` rejects: empty or unparseable body). -/
inductive Response where
  | rejected (message : String) : Response
  | http (status : Nat) (json : Option JVal) : Response

/-- The network: the response `fetch` settles to for a request. -/
abbrev Net := Request → Response

/-- Line 11: `import.meta.env.VITE_API_BASE || "http://localhost:8080"`. -/
def API_BASE (env : Env) : String :=
  match env.viteApiBase with
  | some s => if s != "" then s else "http://localhost:8080"
  | none => "http://localhost:8080"

/-- The property `res.ok` of a response: the status is in the range 200-299. -/
def Response.ok (status : Nat) : Bool :=
  decide (200 ≤ status) && decide (status ≤ 299)

/-! ## Transport: `apiFetch` (lines 73-88) -/

/-- Lines 74-80 of `apiFetch`: the request handed to `fetch`, with the headers
`{ "Content-Type": "application/json", ...(opts.headers || {}) }`. -/
def apiFetchRequest (env : Env) (path : String) (opts : Opts) : Request :=
  let url := API_BASE env ++ path
  let headers := spreadInto [("Content-Type", "application/json")] (opts.headers.getD [])
  { url := url, method := opts.method, headers := headers, body := opts.body }

/-- Lines 81-87 of `apiFetch`: the value returned for what `fetch` settled to. -/
def apiFetchOutcome : Response → JVal
  | .rejected message =>
    .obj [("error", .bool true), ("status", .num 0), ("message", .str message)]
  | .http status json =>
    if status = 204 ∨ status = 202 then .obj [("ok", .bool true)]
    else
      let data : JVal := json.getD .null
      if !Response.ok status then
        .obj (spreadInto [("error", .bool true), ("status", .num status)]
          (if data.truthy then data.ownProps else []))
      else data

/-- The function `apiFetch(path, opts)` against the network `net`. -/
def apiFetch (env : Env) (net : Net) (path : String) (opts : Opts) : JVal :=
  apiFetchOutcome (net (apiFetchRequest env path opts))

/-! ## Session: `AuthProvider` (lines 20-70) -/

/-- The session: the `kb_tokens` entry of `sessionStorage` (`none` = no entry) and the
React state `tokens` (`JVal.null` = no session), as the functions of the current render
read it.  A call of `setTokens` only queues the new value: `tokens` has it once React has
rendered again, after the function that made the call has given control back. -/
structure Session where
  stored : Option String
  tokens : JVal

/-- The session is absent: no `kb_tokens` entry and `tokens` is `null`. -/
def Session.absent (s : Session) : Prop :=
  s.stored = none ∧ s.tokens = .null

instance (s : Session) : Decidable s.absent :=
  match hs : s.stored, ht : s.tokens with
  | none, .null => isTrue ⟨hs, ht⟩
  | some _, _ => isFalse (fun h => by rw [h.1] at hs; cases hs)
  | _, .bool _ => isFalse (fun h => by rw [h.2] at ht; cases ht)
  | _, .num _ => isFalse (fun h => by rw [h.2] at ht; cases ht)
  | _, .str _ => isFalse (fun h => by rw [h.2] at ht; cases ht)
  | _, .arr _ => isFalse (fun h => by rw [h.2] at ht; cases ht)
  | _, .obj _ => isFalse (fun h => by rw [h.2] at ht; cases ht)

/-- Lines 21-28: the initial value of `tokens`, read from the `kb_tokens` entry.
`getItem` gives `null` for a missing entry, which `JSON.parse` reads as the text `null`. -/
def initialTokens (env : Env) (stored : Option String) : JVal :=
  match env.parse (stored.getD "null") with
  | some saved => if saved.truthy then saved else .null
  | none => .null

/-- Line 55: `getAccessToken = () => tokens?.accessToken`. -/
def getAccessToken (s : Session) : Option JVal :=
  s.tokens.getField "accessToken"

/-- Line 64: `isAuthenticated: !!tokens`. -/
def isAuthenticated (s : Session) : Bool :=
  s.tokens.truthy

/-- What a call of `login` leaves: the value it resolves to, or what it throws, and the
session afterwards, the queued `setTokens` applied. -/
structure LoginRun where
  result : Except Thrown JVal
  session : Session

/-- Lines 31-34: the options `login` hands to `apiFetch`. -/
def loginOpts (env : Env) (username password : String) : Opts :=
  { method := some "POST", headers := none,
    body := some (env.stringify
      (.obj [("username", .str username), ("password", .str password)])) }

/-- Lines 30-39: `login(username, password)`. -/
def login (env : Env) (net : Net) (s : Session) (username password : String) : LoginRun :=
  let res := apiFetch env net "/auth/login" (loginOpts env username password)
  match res.getProp "error" with
  | .error e => { result := .error e, session := s }
  | .ok err =>
    if truthy err then { result := .ok res, session := s }
    else { result := .ok res, session := { stored := some (env.stringify res), tokens := res } }

/-- Lines 51-52: `sessionStorage.removeItem("kb_tokens"); setTokens(null)`, the queued
`setTokens` applied. -/
def clearSession (s : Session) : Session :=
  { { s with stored := none } with tokens := .null }

/-- Lines 44-48: the revocation request of `logout`, made when `tokens?.refreshToken` is
truthy. -/
def logoutRequest (env : Env) (s : Session) : Option Request :=
  if truthy (s.tokens.getField "refreshToken") then
    some (apiFetchRequest env "/auth/logout"
      { method := some "POST",
        headers := some [("Authorization",
          "Bearer " ++ toJsString env (s.tokens.getField "accessToken"))],
        body := some (env.stringify
          (.obj [("refreshToken", (s.tokens.getField "refreshToken").getD .null)])) })
  else none

/-- What a call of `logout` leaves: the requests it handed to `fetch`, the session at the
moment the call first gives control back to its caller (at its first `await`, or at its
end when it awaits nothing), and the session once it has run to its end and the queued
`setTokens(null)` is applied. -/
structure LogoutRun where
  sent : List Request
  atYield : Session
  final : Session

/-- Lines 41-53: `logout()`.  With a truthy refresh token the function stops at
`await apiFetch(...)` with the session untouched and clears it when the revocation call
has settled, whatever it settled to.  Otherwise it runs lines 51-52 at once: when it
gives control back, the `kb_tokens` entry is removed and `setTokens(null)` is queued,
`tokens` still being the value it was. -/
def logout (env : Env) (net : Net) (s : Session) : LogoutRun :=
  match logoutRequest env s with
  | some req =>
    let _revoked := apiFetchOutcome (net req)
    { sent := [req], atYield := s, final := clearSession s }
  | none => { sent := [], atYield := { s with stored := none }, final := clearSession s }

/-! ## Authenticated requests: `useApi` (lines 91-107) -/

/-- Lines 95-100 of `authedFetch`: the options handed to `apiFetch`, with the headers
`{ ...(opts.headers || {}), Authorization: "Bearer " + token }`. -/
def authedOpts (env : Env) (s : Session) (opts : Opts) : Opts :=
  let token := getAccessToken s
  let headers := setField (spreadInto [] (opts.headers.getD [])) "Authorization"
    ("Bearer " ++ toJsString env token)
  { opts with headers := some headers }

/-- What a call of `authedFetch` leaves: the value it returns, the requests handed to
`fetch` (its own, then the one of the `logout()` it started), the session at the moment
`return result` delivers the value, and the session once the `logout()` it started
without awaiting has run to its end. -/
structure AuthedRun where
  result : JVal
  sent : List Request
  atReturn : Session
  settled : Session

/-- The test `v === 401` on a value that may be `undefined`. -/
def is401 : Option JVal → Bool
  | some (.num n) => n == 401
  | _ => false

/-- Lines 94-103: `authedFetch(path, opts)`; `net` answers the request itself,
`netRevoke` the revocation call of the `logout()` that line 101 starts. -/
def authedFetch (env : Env) (net netRevoke : Net) (s : Session) (path : String)
    (opts : Opts) : AuthedRun :=
  let req := apiFetchRequest env path (authedOpts env s opts)
  let result := apiFetchOutcome (net req)
  if is401 (result.getField "status") then
    let out := logout env netRevoke s
    { result := result, sent := req :: out.sent, atReturn := out.atYield,
      settled := out.final }
  else { result := result, sent := [req], atReturn := s, settled := s }

/-! ## Session states over time -/

/-- A TokenPair: an object whose `accessToken` and `refreshToken` are both present, as
strings. -/
def isTokenPair (v : JVal) : Bool :=
  match v.getField "accessToken", v.getField "refreshToken" with
  | some (.str _), some (.str _) => true
  | _, _ => false

/-- The sessions reachable from the empty session store by calls of `login`, `logout` and
`authedFetch`, each against a network of its own; the networks that answer a `login` are
those in `loginNets`. -/
inductive Reachable (env : Env) (loginNets : Net → Prop) : Session → Prop where
  | start : Reachable env loginNets { stored := none, tokens := .null }
  | login (s : Session) (net : Net) (username password : String) :
      Reachable env loginNets s → loginNets net →
      Reachable env loginNets (login env net s username password).session
  | logout (s : Session) (net : Net) :
      Reachable env loginNets s → Reachable env loginNets (logout env net s).final
  | authed (s : Session) (net netRevoke : Net) (path : String) (opts : Opts) :
      Reachable env loginNets s →
      Reachable env loginNets (authedFetch env net netRevoke s path opts).settled

/-- A network whose every answer, read by `apiFetch`, is marked as a failure, is a
TokenPair, or is `null`. -/
def issuesTokenPairs (net : Net) : Prop :=
  ∀ req : Request,
    truthy ((apiFetchOutcome (net req)).getField "error") = true ∨
    isTokenPair (apiFetchOutcome (net req)) = true ∨
    apiFetchOutcome (net req) = .null

/-! ## Error display: `GeneralError` (lines 310-320) -/

/-- The read `v?.length`: the number of elements of an array, the number of characters of
a string (JavaScript counts UTF-16 code units), the `length` field of an object,
`undefined` otherwise. -/
def lengthOf : Option JVal → Option JVal
  | some (.arr items) => some (.num items.length)
  | some (.str s) => some (.num s.length)
  | some (.obj fields) => lookupField fields "length"
  | _ => none

/-- The expression `a || b`: `a` when it is truthy, otherwise `b`. -/
def jsOr (a b : Option JVal) : Option JVal :=
  if truthy a then a else b

/-- What a component returns: `null`, or the `div` with one child. -/
inductive Rendered where
  | nothing : Rendered
  | box (child : Option JVal) : Rendered

/-- Lines 310-320: `GeneralError({ error })`, with `msg` as the child of the `div`. -/
def GeneralError (error : JVal) : Rendered :=
  if !error.truthy then .nothing
  else
    let msg :=
      if truthy (lengthOf (error.getField "fieldErrors"))
      then some (.str "Please fix the highlighted fields.")
      else jsOr (jsOr (error.getField "error") (error.getField "message"))
        (some (.str "Something went wrong"))
    .box msg

mutual
/-- The text React shows for a child `{v}`: nothing for `null` and for a boolean, the
text of a string or number, the texts of the elements of an array; an object is not a
valid child (`none`). -/
def childText (env : Env) : JVal → Option String
  | .null => some ""
  | .bool _ => some ""
  | .num n => some (env.numberToString n)
  | .str s => some s
  | .arr items => childrenText env items
  | .obj _ => none
/-- The texts of the elements of an array child, one after the other. -/
def childrenText (env : Env) : List JVal → Option String
  | [] => some ""
  | x :: rest =>
    match childText env x, childrenText env rest with
    | some a, some b => some (a ++ b)
    | _, _ => none
end

/-- The text a rendered component shows (`undefined` as a child shows nothing). -/
def Rendered.text (env : Env) : Rendered → Option String
  | .nothing => some ""
  | .box none => some ""
  | .box (some v) => childText env v

/-! ## Fixtures -/

mutual
/-- A compact JSON text of a value, standing in for `JSON.stringify` in the fixtures. -/
def jsonText : JVal → String
  | .null => "null"
  | .bool b => if b then "true" else "false"
  | .num n => toString n
  | .str s => "\"" ++ s ++ "\""
  | .arr items => "[" ++ jsonItems items ++ "]"
  | .obj fields => "\x7b" ++ jsonFields fields ++ "\x7d"
/-- The elements of an array, separated by commas. -/
def jsonItems : List JVal → String
  | [] => ""
  | x :: [] => jsonText x
  | x :: y :: rest => jsonText x ++ "," ++ jsonItems (y :: rest)
/-- The members of an object, separated by commas. -/
def jsonFields : List (String × JVal) → String
  | [] => ""
  | (k, v) :: [] => "\"" ++ k ++ "\":" ++ jsonText v
  | (k, v) :: kv :: rest => "\"" ++ k ++ "\":" ++ jsonText v ++ "," ++ jsonFields (kv :: rest)
end

/-- The token pair of the scenarios of the specification. -/
def pairA1 : JVal :=
  .obj [("accessToken", .str "a1"), ("refreshToken", .str "r1")]

/-- A platform for the fixtures: no `VITE_API_BASE`, `jsonText` as `JSON.stringify`, and a
`JSON.parse` that knows the texts of `null` and of `pairA1`. -/
def fixtureEnv : Env :=
  { viteApiBase := none
    stringify := jsonText
    parse := fun t =>
      if t = "null" then some .null
      else if t = jsonText pairA1 then some pairA1
      else none
    numberToString := fun n => toString n }

/-- The session after a login that received `pairA1`. -/
def sessionA1 : Session :=
  { stored := some (jsonText pairA1), tokens := pairA1 }

/-- The empty session store. -/
def noSession : Session :=
  { stored := none, tokens := .null }

/-- A network that answers every request with the HTTP status `status` and the parsed
body `json`. -/
def answering (status : Nat) (json : Option JVal) : Net :=
  fun _ => .http status json

/-- A network on which every `fetch` is rejected with the error message `message`. -/
def unreachable (message : String) : Net :=
  fun _ => .rejected message

/-- The options of a `GET` without headers. -/
def plainOpts : Opts :=
  { method := none, headers := none, body := none }

/-! ## Property lists -/

theorem lookupField_setField_self {α : Type} (l : List (String × α)) (k : String) (v : α) :
    lookupField (setField l k v) k = some v := by
  induction l with
  | nil => simp [setField, lookupField]
  | cons kw rest ih =>
    obtain ⟨k1, w⟩ := kw
    by_cases h : k1 = k
    · simp [setField, lookupField, h]
    · simp [setField, lookupField, h, ih]

theorem lookupField_setField_of_ne {α : Type} (l : List (String × α)) (k key : String) (v : α)
    (h : k ≠ key) : lookupField (setField l k v) key = lookupField l key := by
  induction l with
  | nil => simp [setField, lookupField, h]
  | cons kw rest ih =>
    obtain ⟨k1, w⟩ := kw
    by_cases h1 : k1 = k
    · subst h1
      simp [setField, lookupField, h]
    · by_cases h2 : k1 = key
      · subst h2
        simp [setField, lookupField, h1]
      · simp [setField, lookupField, h1, h2, ih]

theorem mem_of_lookupField {α : Type} (l : List (String × α)) (key : String) (v : α)
    (h : lookupField l key = some v) : (key, v) ∈ l := by
  induction l with
  | nil => simp [lookupField] at h
  | cons kw rest ih =>
    obtain ⟨k1, w⟩ := kw
    by_cases h1 : k1 = key
    · simp [lookupField, h1] at h
      simp [h1, h]
    · simp [lookupField, h1] at h
      exact List.mem_cons_of_mem _ (ih h)

theorem lookupField_eq_none_iff {α : Type} (l : List (String × α)) (key : String) :
    lookupField l key = none ↔ ∀ v, (key, v) ∉ l := by
  induction l with
  | nil => simp [lookupField]
  | cons kw rest ih =>
    obtain ⟨k1, w⟩ := kw
    by_cases h1 : k1 = key
    · subst h1
      simp only [lookupField, if_true]
      constructor
      · intro h
        cases h
      · intro h
        exact absurd (List.mem_cons_self _ _) (h w)
    · have h2 : ¬ key = k1 := fun h => h1 h.symm
      simp [lookupField, h1, h2, ih]

/-- A field read after a spread gives a value of the spread properties or the value the
base had. -/
theorem lookupField_spreadInto_cases {α : Type} (props base : List (String × α))
    (key : String) (v : α) (h : lookupField (spreadInto base props) key = some v) :
    (key, v) ∈ props ∨ lookupField base key = some v := by
  induction props generalizing base with
  | nil => exact Or.inr h
  | cons kw rest ih =>
    obtain ⟨k1, w⟩ := kw
    have h1 : lookupField (spreadInto (setField base k1 w) rest) key = some v := h
    rcases ih _ h1 with hm | hb
    · exact Or.inl (List.mem_cons_of_mem _ hm)
    · by_cases hk : k1 = key
      · subst hk
        rw [lookupField_setField_self] at hb
        simp at hb
        simp [hb]
      · rw [lookupField_setField_of_ne _ _ _ _ hk] at hb
        exact Or.inr hb

/-- A spread of properties that do not have the key leaves the field as it was. -/
theorem lookupField_spreadInto_of_none {α : Type} (props base : List (String × α))
    (key : String) (h : lookupField props key = none) :
    lookupField (spreadInto base props) key = lookupField base key := by
  induction props generalizing base with
  | nil => rfl
  | cons kw rest ih =>
    obtain ⟨k1, w⟩ := kw
    by_cases hk : k1 = key
    · simp [lookupField, hk] at h
    · simp [lookupField, hk] at h
      have h1 : lookupField (spreadInto base ((k1, w) :: rest)) key
          = lookupField (spreadInto (setField base k1 w) rest) key := rfl
      rw [h1, ih _ h, lookupField_setField_of_ne _ _ _ _ hk]

/-- A key of the base is still a key after a spread. -/
theorem lookupField_spreadInto_isSome {α : Type} (props base : List (String × α))
    (key : String) (h : (lookupField base key).isSome = true) :
    (lookupField (spreadInto base props) key).isSome = true := by
  induction props generalizing base with
  | nil => exact h
  | cons kw rest ih =>
    obtain ⟨k1, w⟩ := kw
    apply ih
    by_cases hk : k1 = key
    · subst hk
      rw [lookupField_setField_self]
      rfl
    · rw [lookupField_setField_of_ne _ _ _ _ hk]
      exact h

/-! ## Transport -/

/-- The properties spread from a body are own properties of the body. -/
theorem mem_spread_props (data : JVal) (kv : String × JVal)
    (h : kv ∈ (if data.truthy then data.ownProps else [])) : kv ∈ data.ownProps := by
  by_cases ht : data.truthy = true
  · simpa [ht] using h
  · simp [ht] at h

/-- An error status is neither 202 nor 204. -/
theorem not_accepted_of_not_ok (status : Nat) (h : Response.ok status = false) :
    ¬ (status = 204 ∨ status = 202) := by
  intro hs
  rcases hs with hs | hs <;> subst hs <;> simp [Response.ok] at h

/-- The outcome of an error status is the failure shape with the body spread onto it. -/
theorem apiFetchOutcome_error (status : Nat) (json : Option JVal)
    (hok : Response.ok status = false) :
    apiFetchOutcome (.http status json) =
      .obj (spreadInto [("error", .bool true), ("status", .num status)]
        (if (json.getD .null).truthy then (json.getD .null).ownProps else [])) := by
  simp [apiFetchOutcome, not_accepted_of_not_ok status hok, hok]

/-- The outcome of a success status other than 202 and 204 is the parsed body. -/
theorem apiFetchOutcome_success (status : Nat) (json : Option JVal)
    (hok : Response.ok status = true) (h202 : status ≠ 202) (h204 : status ≠ 204) :
    apiFetchOutcome (.http status json) = json.getD .null := by
  simp [apiFetchOutcome, h202, h204, hok]

/-- The `error` of the outcome of an error status is truthy when every own `error` of the
body is. -/
theorem error_of_error_outcome (status : Nat) (json : Option JVal)
    (hok : Response.ok status = false)
    (hbody : ∀ v, ("error", v) ∈ (json.getD .null).ownProps → v.truthy = true) :
    truthy ((apiFetchOutcome (.http status json)).getField "error") = true := by
  rw [apiFetchOutcome_error status json hok]
  simp only [JVal.getField]
  have hsome := lookupField_spreadInto_isSome
    (if (json.getD .null).truthy then (json.getD .null).ownProps else [])
    [("error", JVal.bool true), ("status", JVal.num status)] "error" rfl
  cases hl : lookupField (spreadInto [("error", JVal.bool true), ("status", JVal.num status)]
    (if (json.getD .null).truthy then (json.getD .null).ownProps else [])) "error" with
  | none => rw [hl] at hsome; cases hsome
  | some v =>
    rcases lookupField_spreadInto_cases _ _ _ _ hl with hm | hb
    · exact hbody v (mem_spread_props _ _ hm)
    · have hv : v = JVal.bool true := by
        have : lookupField [("error", JVal.bool true), ("status", JVal.num status)] "error"
            = some (JVal.bool true) := rfl
        rw [this] at hb
        exact (Option.some.inj hb).symm
      subst hv
      rfl

/-- The `status` of the outcome of an error status, when every own `status` of the body
is that status. -/
theorem status_of_error_outcome_of_agree (status : Nat) (json : Option JVal)
    (hok : Response.ok status = false)
    (hbody : ∀ v, ("status", v) ∈ (json.getD .null).ownProps → v = .num status) :
    (apiFetchOutcome (.http status json)).getField "status" = some (.num status) := by
  rw [apiFetchOutcome_error status json hok]
  simp only [JVal.getField]
  have hsome := lookupField_spreadInto_isSome
    (if (json.getD .null).truthy then (json.getD .null).ownProps else [])
    [("error", JVal.bool true), ("status", JVal.num status)] "status" rfl
  cases hl : lookupField (spreadInto [("error", JVal.bool true), ("status", JVal.num status)]
    (if (json.getD .null).truthy then (json.getD .null).ownProps else [])) "status" with
  | none => rw [hl] at hsome; cases hsome
  | some v =>
    rcases lookupField_spreadInto_cases _ _ _ _ hl with hm | hb
    · rw [hbody v (mem_spread_props _ _ hm)]
    · have hv : lookupField [("error", JVal.bool true), ("status", JVal.num status)] "status"
          = some (JVal.num status) := rfl
      rw [hv] at hb
      rw [← Option.some.inj hb]

/-! ## C1 -/

/-- C1, counterexample: for the error status 500 and the body
`{ status: 200, error: null }` the outcome of `apiFetch` has the status 200 of the body,
not 500, and its `error` is `null`, which is falsy. -/
theorem C1_body_overrides_status_and_error :
    Response.ok 500 = false ∧ 500 ≠ 202 ∧ 500 ≠ 204 ∧
    (apiFetchOutcome (.http 500 (some (.obj [("status", .num 200), ("error", .null)])))).getField
      "status" = some (.num 200) ∧
    truthy ((apiFetchOutcome
      (.http 500 (some (.obj [("status", .num 200), ("error", .null)])))).getField "error")
      = false ∧
    ¬ ((apiFetchOutcome
        (.http 500 (some (.obj [("status", .num 200), ("error", .null)])))).getField "status"
        = some (.num 500) ∧
      truthy ((apiFetchOutcome
        (.http 500 (some (.obj [("status", .num 200), ("error", .null)])))).getField "error")
        = true) := by
  refine ⟨rfl, by decide, by decide, rfl, rfl, ?_⟩
  intro h
  have h2 : truthy ((apiFetchOutcome
      (.http 500 (some (.obj [("status", .num 200), ("error", .null)])))).getField "error")
      = false := rfl
  rw [h2] at h
  exact Bool.false_ne_true h.2

/-- C1, amended: for every error status `s` and every JSON-object body, the outcome of
`apiFetch` has the status `s` when every `status` field of the body equals `s` (so also
when it has none), and a truthy `error` when every `error` field of the body is truthy
(so also when it has none). -/
theorem C1_error_outcome_carries_status (status : Nat) (fields : List (String × JVal))
    (hok : Response.ok status = false) :
    ((∀ v, ("status", v) ∈ fields → v = .num status) →
      (apiFetchOutcome (.http status (some (.obj fields)))).getField "status"
        = some (.num status)) ∧
    ((∀ v, ("error", v) ∈ fields → v.truthy = true) →
      truthy ((apiFetchOutcome (.http status (some (.obj fields)))).getField "error") = true) :=
  ⟨fun h => status_of_error_outcome_of_agree status _ hok h,
   fun h => error_of_error_outcome status _ hok h⟩

/-- C1, witness: HTTP 401 with the body `{ status: 401, error: "token_expired" }`. -/
theorem C1_error_outcome_carries_status_witness :
    Response.ok 401 = false ∧
    (apiFetchOutcome (.http 401
      (some (.obj [("status", .num 401), ("error", .str "token_expired")])))).getField
      "status" = some (.num 401) ∧
    truthy ((apiFetchOutcome (.http 401
      (some (.obj [("status", .num 401), ("error", .str "token_expired")])))).getField
      "error") = true :=
  ⟨rfl,
   (C1_error_outcome_carries_status 401
      [("status", .num 401), ("error", .str "token_expired")] rfl).1
     (by intro v hv; simp at hv; subst hv; rfl),
   (C1_error_outcome_carries_status 401
      [("status", .num 401), ("error", .str "token_expired")] rfl).2
     (by intro v hv; simp at hv; subst hv; rfl)⟩

/-! ## C2 -/

/-- C2, counterexample: for the success status 200 and the body `{ error: true }`,
`apiFetch` returns the body, and the test `res?.error` of the callers is truthy on it. -/
theorem C2_success_body_read_as_failure :
    Response.ok 200 = true ∧ 200 ≠ 202 ∧ 200 ≠ 204 ∧
    apiFetchOutcome (.http 200 (some (.obj [("error", .bool true)])))
      = .obj [("error", .bool true)] ∧
    truthy ((apiFetchOutcome (.http 200 (some (.obj [("error", .bool true)])))).getField
      "error") = true ∧
    ¬ (apiFetchOutcome (.http 200 (some (.obj [("error", .bool true)])))
        = .obj [("error", .bool true)] ∧
      truthy ((apiFetchOutcome (.http 200 (some (.obj [("error", .bool true)])))).getField
        "error") = false) := by
  refine ⟨rfl, by decide, by decide, rfl, rfl, ?_⟩
  intro h
  have h2 : truthy ((apiFetchOutcome
      (.http 200 (some (.obj [("error", .bool true)])))).getField "error") = true := rfl
  rw [h2] at h
  exact Bool.noConfusion h.2

/-- C2, amended: for every success status other than 202 and 204 and every parsed body
(`none` and `null` included), `apiFetch` returns exactly the body, nothing added and
nothing changed; the test `res?.error` of the callers reads the result as a failure
exactly when the body itself is an object with a truthy `error` field. -/
theorem C2_success_returns_body (status : Nat) (json : Option JVal)
    (hok : Response.ok status = true) (h202 : status ≠ 202) (h204 : status ≠ 204) :
    apiFetchOutcome (.http status json) = json.getD .null ∧
    (truthy ((apiFetchOutcome (.http status json)).getField "error") = true ↔
      ∃ fields v, json = some (.obj fields) ∧ lookupField fields "error" = some v ∧
        v.truthy = true) := by
  refine ⟨apiFetchOutcome_success status json hok h202 h204, ?_⟩
  rw [apiFetchOutcome_success status json hok h202 h204]
  constructor
  · intro h
    cases json with
    | none => simp [JVal.getField, truthy] at h
    | some b =>
      cases b with
      | obj fields =>
        simp only [Option.getD, JVal.getField] at h
        cases hl : lookupField fields "error" with
        | none => rw [hl] at h; simp [truthy] at h
        | some v =>
          rw [hl] at h
          exact ⟨fields, v, rfl, hl, h⟩
      | _ => simp [JVal.getField, truthy] at h
  · rintro ⟨fields, v, hj, hl, hv⟩
    subst hj
    simp only [Option.getD, JVal.getField, hl, truthy, hv]

/-- C2, witness: HTTP 200 with the body `null`. -/
theorem C2_success_returns_body_witness :
    apiFetchOutcome (.http 200 (some .null)) = .null ∧
    (truthy ((apiFetchOutcome (.http 200 (some .null))).getField "error") = true ↔
      ∃ fields v, some JVal.null = some (.obj fields) ∧ lookupField fields "error" = some v ∧
        v.truthy = true) :=
  C2_success_returns_body 200 (some .null) rfl (by decide) (by decide)

/-! ## Authenticated requests -/

theorem is401_iff (v : Option JVal) : is401 v = true ↔ v = some (.num 401) := by
  cases v with
  | none => simp [is401]
  | some w => cases w <;> simp [is401]

theorem clearSession_absent (s : Session) : (clearSession s).absent :=
  ⟨rfl, rfl⟩

theorem logout_final (env : Env) (net : Net) (s : Session) :
    (logout env net s).final = clearSession s := by
  unfold logout
  cases logoutRequest env s <;> rfl

theorem logout_sent (env : Env) (net : Net) (s : Session) :
    (logout env net s).sent = (logoutRequest env s).toList := by
  unfold logout
  cases logoutRequest env s <;> rfl

theorem logout_atYield (env : Env) (net : Net) (s : Session) :
    (logout env net s).atYield =
      if truthy (s.tokens.getField "refreshToken") then s
      else { stored := none, tokens := s.tokens } := by
  unfold logout logoutRequest
  by_cases h : truthy (s.tokens.getField "refreshToken") = true
  · simp [h]
  · simp [h]

theorem authedFetch_result (env : Env) (net netRevoke : Net) (s : Session) (path : String)
    (opts : Opts) :
    (authedFetch env net netRevoke s path opts).result
      = apiFetchOutcome (net (apiFetchRequest env path (authedOpts env s opts))) := by
  unfold authedFetch
  by_cases h : is401 ((apiFetchOutcome
      (net (apiFetchRequest env path (authedOpts env s opts)))).getField "status") = true
  · simp [h]
  · simp [h]

/-- The run of `authedFetch` when the `status` of the outcome is 401. -/
theorem authedFetch_of_401 (env : Env) (net netRevoke : Net) (s : Session) (path : String)
    (opts : Opts)
    (h : (apiFetchOutcome (net (apiFetchRequest env path (authedOpts env s opts)))).getField
      "status" = some (.num 401)) :
    authedFetch env net netRevoke s path opts =
      { result := apiFetchOutcome (net (apiFetchRequest env path (authedOpts env s opts)))
        sent := apiFetchRequest env path (authedOpts env s opts) :: (logout env netRevoke s).sent
        atReturn := (logout env netRevoke s).atYield
        settled := (logout env netRevoke s).final } := by
  unfold authedFetch
  simp [(is401_iff _).2 h]

/-- The run of `authedFetch` when the `status` of the outcome is not 401. -/
theorem authedFetch_of_not_401 (env : Env) (net netRevoke : Net) (s : Session)
    (path : String) (opts : Opts)
    (h : (apiFetchOutcome (net (apiFetchRequest env path (authedOpts env s opts)))).getField
      "status" ≠ some (.num 401)) :
    authedFetch env net netRevoke s path opts =
      { result := apiFetchOutcome (net (apiFetchRequest env path (authedOpts env s opts)))
        sent := [apiFetchRequest env path (authedOpts env s opts)]
        atReturn := s
        settled := s } := by
  unfold authedFetch
  have h2 : is401 ((apiFetchOutcome
      (net (apiFetchRequest env path (authedOpts env s opts)))).getField "status") = false := by
    cases hb : is401 ((apiFetchOutcome
      (net (apiFetchRequest env path (authedOpts env s opts)))).getField "status") with
    | false => rfl
    | true => exact absurd ((is401_iff _).1 hb) h
  simp [h2]

/-- The `status` of an outcome is the HTTP status, 0 for a rejected `fetch`, or an own
`status` of the body; the outcome of 202 and 204 has none. -/
theorem status_of_outcome_cases (resp : Response) (v : JVal)
    (h : (apiFetchOutcome resp).getField "status" = some v) :
    (∃ message, resp = .rejected message ∧ v = .num 0) ∨
    ∃ status json, resp = .http status json ∧
      (v = .num status ∨ ("status", v) ∈ (json.getD .null).ownProps) := by
  cases resp with
  | rejected message =>
    refine Or.inl ⟨message, rfl, ?_⟩
    have : (apiFetchOutcome (.rejected message)).getField "status" = some (.num 0) := rfl
    rw [this] at h
    exact (Option.some.inj h).symm
  | http status json =>
    refine Or.inr ⟨status, json, rfl, ?_⟩
    by_cases hacc : status = 204 ∨ status = 202
    · have : apiFetchOutcome (.http status json) = .obj [("ok", .bool true)] := by
        simp [apiFetchOutcome, hacc]
      rw [this] at h
      simp [JVal.getField, lookupField] at h
    · by_cases hok : Response.ok status = true
      · have h202 : status ≠ 202 := fun e => hacc (Or.inr e)
        have h204 : status ≠ 204 := fun e => hacc (Or.inl e)
        rw [apiFetchOutcome_success status json hok h202 h204] at h
        right
        cases hd : json.getD .null with
        | obj fields =>
          rw [hd] at h
          exact mem_of_lookupField _ _ _ h
        | _ => rw [hd] at h; simp [JVal.getField] at h
      · have hok2 : Response.ok status = false := by simpa using hok
        rw [apiFetchOutcome_error status json hok2] at h
        rcases lookupField_spreadInto_cases _ _ _ _ h with hm | hb
        · exact Or.inr (mem_spread_props _ _ hm)
        · left
          have : lookupField [("error", JVal.bool true), ("status", JVal.num status)] "status"
              = some (JVal.num status) := rfl
          rw [this] at hb
          exact (Option.some.inj hb).symm

/-! ## C3 -/

/-- C3, counterexample: with the session of `pairA1` present, the answer HTTP 401 with
the body `{ status: 403 }` gives an outcome of status 403, and the session stays as it
was: it is not absent afterwards. -/
theorem C3_unauthorized_with_status_in_body :
    (authedFetch fixtureEnv (answering 401 (some (.obj [("status", .num 403)])))
      (answering 200 none) sessionA1 "/documents" plainOpts).result.getField "status"
      = some (.num 403) ∧
    (authedFetch fixtureEnv (answering 401 (some (.obj [("status", .num 403)])))
      (answering 200 none) sessionA1 "/documents" plainOpts).settled = sessionA1 ∧
    ¬ (authedFetch fixtureEnv (answering 401 (some (.obj [("status", .num 403)])))
      (answering 200 none) sessionA1 "/documents" plainOpts).settled.absent := by
  refine ⟨rfl, rfl, ?_⟩
  intro h
  have h2 : (authedFetch fixtureEnv (answering 401 (some (.obj [("status", .num 403)])))
      (answering 200 none) sessionA1 "/documents" plainOpts).settled.stored
      = some (jsonText pairA1) := rfl
  rw [h.1] at h2
  cases h2

/-- C3, amended: for every call of `authedFetch`, in every session, whose answer is
HTTP 401 with a body whose `status` fields, if any, are 401 and whose `error` fields, if
any, are truthy, the session is absent once the call has settled, the value returned
is the outcome of `apiFetch`, with the status 401 and a truthy `error`, and the request
is handed to `fetch` once, followed only by the revocation request of `logout`. -/
theorem C3_unauthorized_clears_session (env : Env) (net netRevoke : Net) (s : Session)
    (path : String) (opts : Opts) (json : Option JVal)
    (hresp : net (apiFetchRequest env path (authedOpts env s opts)) = .http 401 json)
    (hstatus : ∀ v, ("status", v) ∈ (json.getD .null).ownProps → v = .num 401)
    (herror : ∀ v, ("error", v) ∈ (json.getD .null).ownProps → v.truthy = true) :
    (authedFetch env net netRevoke s path opts).settled.absent ∧
    (authedFetch env net netRevoke s path opts).result = apiFetchOutcome (.http 401 json) ∧
    (authedFetch env net netRevoke s path opts).result.getField "status"
      = some (.num 401) ∧
    truthy ((authedFetch env net netRevoke s path opts).result.getField "error") = true ∧
    (authedFetch env net netRevoke s path opts).sent
      = apiFetchRequest env path (authedOpts env s opts) :: (logoutRequest env s).toList := by
  have hst : (apiFetchOutcome (net (apiFetchRequest env path (authedOpts env s opts)))).getField
      "status" = some (.num 401) := by
    rw [hresp]
    exact status_of_error_outcome_of_agree 401 json rfl hstatus
  rw [authedFetch_of_401 env net netRevoke s path opts hst, hresp]
  refine ⟨?_, rfl, ?_, ?_, ?_⟩
  · show ((logout env netRevoke s).final).absent
    rw [logout_final]
    exact clearSession_absent s
  · exact status_of_error_outcome_of_agree 401 json rfl hstatus
  · exact error_of_error_outcome 401 json rfl herror
  · show _ :: (logout env netRevoke s).sent = _
    rw [logout_sent]

/-- C3, witness: HTTP 401 with the body `{ status: 401, error: "token_expired" }` in the
session of `pairA1`. -/
theorem C3_unauthorized_clears_session_witness :
    (authedFetch fixtureEnv
      (answering 401 (some (.obj [("status", .num 401), ("error", .str "token_expired")])))
      (answering 200 none) sessionA1 "/documents" plainOpts).settled.absent ∧
    (authedFetch fixtureEnv
      (answering 401 (some (.obj [("status", .num 401), ("error", .str "token_expired")])))
      (answering 200 none) sessionA1 "/documents" plainOpts).result.getField "status"
      = some (.num 401) :=
  have h := C3_unauthorized_clears_session fixtureEnv
    (answering 401 (some (.obj [("status", .num 401), ("error", .str "token_expired")])))
    (answering 200 none) sessionA1 "/documents" plainOpts
    (some (.obj [("status", .num 401), ("error", .str "token_expired")])) rfl
    (by intro v hv; simp [JVal.ownProps] at hv; subst hv; rfl)
    (by intro v hv; simp [JVal.ownProps] at hv; subst hv; rfl)
  ⟨h.1, h.2.2.1⟩

/-! ## C4 -/

/-- C4, counterexample: with the session of `pairA1` present, the answer HTTP 200 with
the body `{ status: 401 }` is returned as it is, its `status` is 401, and the session is
cleared: the session after the call is not the session before it. -/
theorem C4_success_body_with_status_401 :
    (200 : Nat) ≠ 401 ∧
    (authedFetch fixtureEnv (answering 200 (some (.obj [("status", .num 401)])))
      (answering 200 none) sessionA1 "/documents" plainOpts).result
      = .obj [("status", .num 401)] ∧
    (authedFetch fixtureEnv (answering 200 (some (.obj [("status", .num 401)])))
      (answering 200 none) sessionA1 "/documents" plainOpts).settled
      = { stored := none, tokens := .null } ∧
    (authedFetch fixtureEnv (answering 200 (some (.obj [("status", .num 401)])))
      (answering 200 none) sessionA1 "/documents" plainOpts).settled ≠ sessionA1 := by
  refine ⟨by decide, rfl, rfl, ?_⟩
  intro h
  have h2 : (authedFetch fixtureEnv (answering 200 (some (.obj [("status", .num 401)])))
      (answering 200 none) sessionA1 "/documents" plainOpts).settled.stored = none := rfl
  rw [h] at h2
  cases h2

/-- C4, amended: for every call of `authedFetch` whose answer is not an HTTP 401 and
whose body carries no `status` field equal to 401 (a rejected `fetch` has no body), the
session is the session before the call, when the value is returned and afterwards, and
one request is handed to `fetch`. -/
theorem C4_other_outcomes_keep_session (env : Env) (net netRevoke : Net) (s : Session)
    (path : String) (opts : Opts)
    (hstatus : ∀ json, net (apiFetchRequest env path (authedOpts env s opts)) ≠ .http 401 json)
    (hbody : ∀ status json v,
      net (apiFetchRequest env path (authedOpts env s opts)) = .http status json →
      ("status", v) ∈ (json.getD .null).ownProps → v ≠ .num 401) :
    (authedFetch env net netRevoke s path opts).settled = s ∧
    (authedFetch env net netRevoke s path opts).atReturn = s ∧
    (authedFetch env net netRevoke s path opts).sent
      = [apiFetchRequest env path (authedOpts env s opts)] := by
  have hst : (apiFetchOutcome (net (apiFetchRequest env path (authedOpts env s opts)))).getField
      "status" ≠ some (.num 401) := by
    intro h
    rcases status_of_outcome_cases _ _ h with ⟨message, _, hv⟩ | ⟨status, json, hr, hv⟩
    · cases hv
    · rcases hv with hv | hv
      · have h401 : status = 401 := by
          have h1 : ((401 : Nat) : Int) = (status : Int) := JVal.num.inj hv
          exact_mod_cast h1.symm
        subst h401
        exact hstatus json hr
      · exact hbody status json _ hr hv rfl
  rw [authedFetch_of_not_401 env net netRevoke s path opts hst]
  exact ⟨rfl, rfl, rfl⟩

/-- C4, witness: HTTP 404 with the body `{ status: 404, error: "not_found" }`, in the
session of `pairA1`. -/
theorem C4_other_outcomes_keep_session_witness :
    (authedFetch fixtureEnv
      (answering 404 (some (.obj [("status", .num 404), ("error", .str "not_found")])))
      (answering 200 none) sessionA1 "/documents" plainOpts).settled = sessionA1 ∧
    (authedFetch fixtureEnv
      (answering 404 (some (.obj [("status", .num 404), ("error", .str "not_found")])))
      (answering 200 none) sessionA1 "/documents" plainOpts).atReturn = sessionA1 ∧
    (authedFetch fixtureEnv
      (answering 404 (some (.obj [("status", .num 404), ("error", .str "not_found")])))
      (answering 200 none) sessionA1 "/documents" plainOpts).sent
      = [apiFetchRequest fixtureEnv "/documents" (authedOpts fixtureEnv sessionA1 plainOpts)] :=
  C4_other_outcomes_keep_session fixtureEnv
    (answering 404 (some (.obj [("status", .num 404), ("error", .str "not_found")])))
    (answering 200 none) sessionA1 "/documents" plainOpts
    (by
      intro json h
      have h1 : (404 : Nat) = 401 := by injection h
      exact absurd h1 (by decide))
    (by
      intro status json v h hv
      have h2 : json = some (.obj [("status", .num 404), ("error", .str "not_found")]) := by
        injection h with _ h2; exact h2.symm
      subst h2
      simp [JVal.ownProps] at hv
      subst hv
      intro h401
      have h3 : ((404 : Nat) : Int) = 401 := JVal.num.inj h401
      exact absurd h3 (by decide))

/-! ## C5 -/

/-- C5, counterexample: in the session of `pairA1`, which has a refresh token, a call
answered by HTTP 401 returns the outcome of status 401 while the session is still the
session of `pairA1`: it is not absent when the outcome is delivered. -/
theorem C5_session_present_at_return :
    (authedFetch fixtureEnv (answering 401 none) (answering 200 none) sessionA1
      "/documents" plainOpts).result.getField "status" = some (.num 401) ∧
    (authedFetch fixtureEnv (answering 401 none) (answering 200 none) sessionA1
      "/documents" plainOpts).atReturn = sessionA1 ∧
    ¬ (authedFetch fixtureEnv (answering 401 none) (answering 200 none) sessionA1
      "/documents" plainOpts).atReturn.absent := by
  refine ⟨rfl, rfl, ?_⟩
  intro h
  have h2 : (authedFetch fixtureEnv (answering 401 none) (answering 200 none) sessionA1
      "/documents" plainOpts).atReturn.stored = some (jsonText pairA1) := rfl
  rw [h.1] at h2
  cases h2

/-- C5, amended: when the outcome of an authenticated request has the status 401,
`logout()` is started before the outcome is returned.  In a session without a truthy
refresh token, the `kb_tokens` entry is already removed when the outcome is delivered,
and `setTokens(null)` is queued, the tokens in memory still being what they were.  In a
session with one, the revocation request has been handed to `fetch` and the session is
still as it was when the outcome is delivered.  In both, the session is absent once
`logout` has run to its end and the queued update is applied, whatever the backend
answers. -/
theorem C5_clear_on_unauthorized (env : Env) (net netRevoke : Net) (s : Session)
    (path : String) (opts : Opts)
    (h401 : (authedFetch env net netRevoke s path opts).result.getField "status"
      = some (.num 401)) :
    (truthy (s.tokens.getField "refreshToken") = false →
      (authedFetch env net netRevoke s path opts).atReturn
        = { stored := none, tokens := s.tokens } ∧
      (authedFetch env net netRevoke s path opts).sent.length = 1) ∧
    (truthy (s.tokens.getField "refreshToken") = true →
      (authedFetch env net netRevoke s path opts).atReturn = s ∧
      (authedFetch env net netRevoke s path opts).sent.length = 2) ∧
    (authedFetch env net netRevoke s path opts).settled.absent := by
  rw [authedFetch_result] at h401
  rw [authedFetch_of_401 env net netRevoke s path opts h401]
  refine ⟨?_, ?_, ?_⟩
  · intro hrt
    constructor
    · show (logout env netRevoke s).atYield = _
      rw [logout_atYield, hrt]
      rfl
    · show (_ :: (logout env netRevoke s).sent).length = 1
      rw [logout_sent]
      simp [logoutRequest, hrt]
  · intro hrt
    constructor
    · show (logout env netRevoke s).atYield = s
      rw [logout_atYield, hrt]
      rfl
    · show (_ :: (logout env netRevoke s).sent).length = 2
      rw [logout_sent]
      simp [logoutRequest, hrt]
  · show ((logout env netRevoke s).final).absent
    rw [logout_final]
    exact clearSession_absent s

/-- C5, witness: HTTP 401 in a session whose tokens have no refresh token. -/
theorem C5_clear_on_unauthorized_witness :
    (authedFetch fixtureEnv (answering 401 none) (answering 200 none)
      { stored := some "a1", tokens := .obj [("accessToken", .str "a1")] }
      "/documents" plainOpts).atReturn
      = { stored := none, tokens := .obj [("accessToken", .str "a1")] } ∧
    (authedFetch fixtureEnv (answering 401 none) (answering 200 none)
      { stored := some "a1", tokens := .obj [("accessToken", .str "a1")] }
      "/documents" plainOpts).settled.absent :=
  have h := C5_clear_on_unauthorized fixtureEnv (answering 401 none) (answering 200 none)
    { stored := some "a1", tokens := .obj [("accessToken", .str "a1")] }
    "/documents" plainOpts rfl
  ⟨(h.1 rfl).1, h.2.2⟩

/-! ## Login -/

/-- The run of `login` when the outcome of `apiFetch` has a truthy `error`. -/
theorem login_of_failure (env : Env) (net : Net) (s : Session) (username password : String)
    (h : truthy ((apiFetch env net "/auth/login" (loginOpts env username password)).getField
      "error") = true) :
    login env net s username password =
      { result := .ok (apiFetch env net "/auth/login" (loginOpts env username password))
        session := s } := by
  unfold login
  cases hres : apiFetch env net "/auth/login" (loginOpts env username password) with
  | obj fields =>
    rw [hres] at h
    simp only [JVal.getProp]
    simp [h]
  | _ => rw [hres] at h; simp [JVal.getField, truthy] at h

/-- The run of `login` when the outcome of `apiFetch` is an object without a truthy
`error`. -/
theorem login_of_success (env : Env) (net : Net) (s : Session) (username password : String)
    (fields : List (String × JVal))
    (hres : apiFetch env net "/auth/login" (loginOpts env username password) = .obj fields)
    (h : truthy (lookupField fields "error") = false) :
    login env net s username password =
      { result := .ok (.obj fields)
        session := { stored := some (env.stringify (.obj fields)), tokens := .obj fields } } := by
  unfold login
  rw [hres]
  simp only [JVal.getProp, JVal.getField]
  simp [h]

/-- The run of `login` when the outcome of `apiFetch` is `null`. -/
theorem login_of_null (env : Env) (net : Net) (s : Session) (username password : String)
    (hres : apiFetch env net "/auth/login" (loginOpts env username password) = .null) :
    login env net s username password =
      { result := .error (.typeError "Cannot read properties of null (reading error)")
        session := s } := by
  unfold login
  rw [hres]
  rfl

/-- A TokenPair is an object. -/
theorem obj_of_isTokenPair (v : JVal) (h : isTokenPair v = true) : ∃ fields, v = .obj fields := by
  cases v with
  | obj fields => exact ⟨fields, rfl⟩
  | _ => simp [isTokenPair, JVal.getField] at h

/-! ## C6 -/

/-- C6, counterexample: the login endpoint answers HTTP 500 with the body
`{ error: false }`; the outcome `{ error: false, status: 500 }` of `apiFetch` is returned,
and it is written to the empty session, which then counts as authenticated. -/
theorem C6_failed_login_stored :
    Response.ok 500 = false ∧
    (login fixtureEnv (answering 500 (some (.obj [("error", .bool false)]))) noSession
      "alice" "hunter2").session.tokens = .obj [("error", .bool false), ("status", .num 500)] ∧
    isAuthenticated (login fixtureEnv (answering 500 (some (.obj [("error", .bool false)])))
      noSession "alice" "hunter2").session = true ∧
    (login fixtureEnv (answering 500 (some (.obj [("error", .bool false)]))) noSession
      "alice" "hunter2").session ≠ noSession := by
  refine ⟨rfl, rfl, rfl, ?_⟩
  intro h
  have h2 : isAuthenticated (login fixtureEnv
      (answering 500 (some (.obj [("error", .bool false)]))) noSession
      "alice" "hunter2").session = true := rfl
  rw [h] at h2
  exact Bool.noConfusion h2

/-- C6, amended: for every login call on which the network is unreachable, or the login
endpoint answers with an error status and a body whose `error` fields, if any, are
truthy, `login` returns exactly the outcome of `apiFetch` and the session, the
`kb_tokens` entry and the tokens in memory, is as it was. -/
theorem C6_failed_login_keeps_session (env : Env) (net : Net) (s : Session)
    (username password : String)
    (hfail : ∀ status json,
      net (apiFetchRequest env "/auth/login" (loginOpts env username password))
        = .http status json →
      Response.ok status = false ∧
      ∀ v, ("error", v) ∈ (json.getD .null).ownProps → v.truthy = true) :
    (login env net s username password).result
      = .ok (apiFetch env net "/auth/login" (loginOpts env username password)) ∧
    (login env net s username password).session = s := by
  have herr : truthy ((apiFetch env net "/auth/login"
      (loginOpts env username password)).getField "error") = true := by
    unfold apiFetch
    cases hr : net (apiFetchRequest env "/auth/login" (loginOpts env username password)) with
    | rejected message => rfl
    | http status json =>
      exact error_of_error_outcome status json (hfail status json hr).1 (hfail status json hr).2
  rw [login_of_failure env net s username password herr]
  exact ⟨rfl, rfl⟩

/-- C6, witness: the login endpoint answers HTTP 401 with the body
`{ error: "bad_credentials" }` while the session of `pairA1` is present. -/
theorem C6_failed_login_keeps_session_witness :
    (login fixtureEnv (answering 401 (some (.obj [("error", .str "bad_credentials")])))
      sessionA1 "alice" "wrong").result
      = .ok (apiFetch fixtureEnv
          (answering 401 (some (.obj [("error", .str "bad_credentials")])))
          "/auth/login" (loginOpts fixtureEnv "alice" "wrong")) ∧
    (login fixtureEnv (answering 401 (some (.obj [("error", .str "bad_credentials")])))
      sessionA1 "alice" "wrong").session = sessionA1 :=
  C6_failed_login_keeps_session fixtureEnv
    (answering 401 (some (.obj [("error", .str "bad_credentials")]))) sessionA1
    "alice" "wrong"
    (by
      intro status json h
      have h1 : status = 401 := by injection h with h1 _; exact h1.symm
      have h2 : json = some (.obj [("error", .str "bad_credentials")]) := by
        injection h with _ h2; exact h2.symm
      subst h1 h2
      refine ⟨rfl, ?_⟩
      intro v hv
      simp [JVal.ownProps] at hv
      subst hv
      rfl)

/-! ## C7 -/

/-- C7, counterexample: from the empty session store, a `login` that the endpoint answers
with HTTP 204 stores the marker `{ ok: true }` as the session: it counts as authenticated
and is not a TokenPair. -/
theorem C7_marker_stored_as_session :
    Reachable fixtureEnv (fun _ => True)
      (login fixtureEnv (answering 204 none) noSession "alice" "hunter2").session ∧
    (login fixtureEnv (answering 204 none) noSession "alice" "hunter2").session.tokens
      = .obj [("ok", .bool true)] ∧
    isAuthenticated (login fixtureEnv (answering 204 none) noSession "alice" "hunter2").session
      = true ∧
    ¬ ((login fixtureEnv (answering 204 none) noSession "alice" "hunter2").session.absent ∨
      isTokenPair (login fixtureEnv (answering 204 none) noSession "alice" "hunter2").session.tokens
        = true) := by
  refine ⟨Reachable.login noSession (answering 204 none) "alice" "hunter2" Reachable.start
    trivial, rfl, rfl, ?_⟩
  intro h
  rcases h with h | h
  · have h2 : (login fixtureEnv (answering 204 none) noSession "alice"
        "hunter2").session.stored = some (jsonText (.obj [("ok", .bool true)])) := rfl
    rw [h.1] at h2
    cases h2
  · have h2 : isTokenPair (login fixtureEnv (answering 204 none) noSession "alice"
        "hunter2").session.tokens = false := rfl
    rw [h2] at h
    exact Bool.noConfusion h

/-- C7, amended: in every state reachable from the empty session store by any sequence
of `login`, `logout` and `authedFetch` calls, against any backend whose answers to
`login`, when `apiFetch` does not mark them as failures, are TokenPairs (or `null`), the
session is either absent or a TokenPair with both tokens present, stored under
`kb_tokens` as the text of the tokens in memory. -/
theorem C7_session_absent_or_pair (env : Env) (s : Session)
    (h : Reachable env issuesTokenPairs s) :
    s.absent ∨ (isTokenPair s.tokens = true ∧ s.stored = some (env.stringify s.tokens)) := by
  induction h with
  | start => exact Or.inl ⟨rfl, rfl⟩
  | login s net username password _ hnet ih =>
    have hreq := hnet (apiFetchRequest env "/auth/login" (loginOpts env username password))
    rcases hreq with herr | hpair | hnull
    · rw [login_of_failure env net s username password herr]
      exact ih
    · by_cases herr : truthy ((apiFetch env net "/auth/login"
          (loginOpts env username password)).getField "error") = true
      · rw [login_of_failure env net s username password herr]
        exact ih
      · obtain ⟨fields, hf⟩ := obj_of_isTokenPair _ hpair
        have hf2 : apiFetch env net "/auth/login" (loginOpts env username password)
            = .obj fields := hf
        have herr2 : truthy (lookupField fields "error") = false := by
          rw [hf2] at herr
          simpa [JVal.getField] using herr
        rw [login_of_success env net s username password fields hf2 herr2]
        right
        rw [hf] at hpair
        exact ⟨hpair, rfl⟩
    · rw [login_of_null env net s username password hnull]
      exact ih
  | logout s net _ _ =>
    rw [logout_final]
    exact Or.inl (clearSession_absent s)
  | authed s net netRevoke path opts _ ih =>
    by_cases h401 : (apiFetchOutcome (net (apiFetchRequest env path
        (authedOpts env s opts)))).getField "status" = some (.num 401)
    · rw [authedFetch_of_401 env net netRevoke s path opts h401]
      show ((logout env netRevoke s).final).absent ∨ _
      rw [logout_final]
      exact Or.inl (clearSession_absent s)
    · rw [authedFetch_of_not_401 env net netRevoke s path opts h401]
      exact ih

/-- C7, witness: the session after a `login` that received `pairA1` with HTTP 200. -/
theorem C7_session_absent_or_pair_witness :
    (login fixtureEnv (answering 200 (some pairA1)) noSession "alice" "hunter2").session.absent ∨
    (isTokenPair (login fixtureEnv (answering 200 (some pairA1)) noSession "alice"
        "hunter2").session.tokens = true ∧
      (login fixtureEnv (answering 200 (some pairA1)) noSession "alice" "hunter2").session.stored
        = some (fixtureEnv.stringify (login fixtureEnv (answering 200 (some pairA1)) noSession
            "alice" "hunter2").session.tokens)) :=
  C7_session_absent_or_pair fixtureEnv _
    (Reachable.login noSession (answering 200 (some pairA1)) "alice" "hunter2" Reachable.start
      (fun _ => Or.inr (Or.inl rfl)))

/-! ## C8 -/

/-- C8, failing input: the login endpoint answers HTTP 200 with an empty or unparseable
body; `apiFetch` returns `null`, the read `res.error` of line 35 throws a `TypeError`, and
`login` resolves to no outcome. -/
theorem C8_login_throws_on_null_outcome :
    apiFetch fixtureEnv (answering 200 none) "/auth/login"
      (loginOpts fixtureEnv "alice" "hunter2") = .null ∧
    (login fixtureEnv (answering 200 none) noSession "alice" "hunter2").result
      = .error (.typeError "Cannot read properties of null (reading error)") :=
  ⟨rfl, rfl⟩

/-! ## C9 -/

/-- C9, counterexample: the login endpoint returns the TokenPair `pairA1` with the 2xx
status 202; `login` returns the marker `{ ok: true }` and stores it, not `pairA1`. -/
theorem C9_accepted_login_drops_pair :
    Response.ok 202 = true ∧ isTokenPair pairA1 = true ∧
    (login fixtureEnv (answering 202 (some pairA1)) noSession "alice" "hunter2").result
      = .ok (.obj [("ok", .bool true)]) ∧
    (login fixtureEnv (answering 202 (some pairA1)) noSession "alice" "hunter2").session.tokens
      = .obj [("ok", .bool true)] ∧
    (login fixtureEnv (answering 202 (some pairA1)) noSession "alice" "hunter2").session.tokens
      ≠ pairA1 := by
  refine ⟨rfl, rfl, rfl, rfl, ?_⟩
  intro h
  have h2 : isTokenPair (login fixtureEnv (answering 202 (some pairA1)) noSession "alice"
      "hunter2").session.tokens = false := rfl
  rw [h] at h2
  exact Bool.noConfusion h2

/-- C9, amended: for every login that the backend answers with a success status other
than 202 and 204 and a TokenPair `p` without a truthy `error` field, `login` returns
`p`, the tokens in memory afterwards are exactly `p`, the text stored under `kb_tokens`
is `JSON.stringify(p)`, and, `JSON.parse` reading that text back as `p`, the initial
session load yields `p`. -/
theorem C9_login_stores_pair (env : Env) (net : Net) (s : Session)
    (username password : String) (status : Nat) (p : JVal)
    (hresp : net (apiFetchRequest env "/auth/login" (loginOpts env username password))
      = .http status (some p))
    (hok : Response.ok status = true) (h202 : status ≠ 202) (h204 : status ≠ 204)
    (hpair : isTokenPair p = true) (herr : truthy (p.getField "error") = false)
    (hcodec : env.parse (env.stringify p) = some p) :
    (login env net s username password).result = .ok p ∧
    (login env net s username password).session.tokens = p ∧
    (login env net s username password).session.stored = some (env.stringify p) ∧
    initialTokens env (login env net s username password).session.stored = p := by
  obtain ⟨fields, hf⟩ := obj_of_isTokenPair p hpair
  subst hf
  have hres : apiFetch env net "/auth/login" (loginOpts env username password)
      = .obj fields := by
    unfold apiFetch
    rw [hresp, apiFetchOutcome_success status _ hok h202 h204]
    rfl
  rw [login_of_success env net s username password fields hres herr]
  refine ⟨rfl, rfl, rfl, ?_⟩
  simp [initialTokens, hcodec, JVal.truthy]

/-- C9, witness: the scenario of the specification, `login("alice", "hunter2")` against
a backend that returns `pairA1` with HTTP 200. -/
theorem C9_login_stores_pair_witness :
    (login fixtureEnv (answering 200 (some pairA1)) noSession "alice" "hunter2").result
      = .ok pairA1 ∧
    (login fixtureEnv (answering 200 (some pairA1)) noSession "alice" "hunter2").session.tokens
      = pairA1 ∧
    (login fixtureEnv (answering 200 (some pairA1)) noSession "alice" "hunter2").session.stored
      = some (fixtureEnv.stringify pairA1) ∧
    initialTokens fixtureEnv
      (login fixtureEnv (answering 200 (some pairA1)) noSession "alice" "hunter2").session.stored
      = pairA1 :=
  C9_login_stores_pair fixtureEnv (answering 200 (some pairA1)) noSession "alice" "hunter2"
    200 pairA1 rfl rfl (by decide) (by decide) rfl rfl rfl

/-! ## Header objects -/

theorem keys_setField {α : Type} (l : List (String × α)) (k : String) (v : α) :
    (setField l k v).map Prod.fst =
      if k ∈ l.map Prod.fst then l.map Prod.fst else l.map Prod.fst ++ [k] := by
  induction l with
  | nil => simp [setField]
  | cons kw rest ih =>
    obtain ⟨k1, w⟩ := kw
    by_cases h : k1 = k
    · subst h
      simp [setField]
    · have h2 : ¬ k = k1 := fun e => h e.symm
      by_cases hm : k ∈ rest.map Prod.fst
      · simp only [setField, h, if_false, List.map_cons, ih, hm, if_true, List.mem_cons,
          or_true]
      · simp only [setField, h, if_false, List.map_cons, ih, hm, List.mem_cons, h2,
          or_self, List.cons_append]

/-- A property write keeps the keys of a property list distinct. -/
theorem nodup_keys_setField {α : Type} (l : List (String × α)) (k : String) (v : α)
    (h : (l.map Prod.fst).Nodup) : ((setField l k v).map Prod.fst).Nodup := by
  rw [keys_setField]
  by_cases hm : k ∈ l.map Prod.fst
  · simpa [hm] using h
  · simp only [hm, if_false]
    rw [List.nodup_append]
    refine ⟨h, List.nodup_singleton k, ?_⟩
    intro a ha hb
    simp at hb
    subst hb
    exact hm ha

/-- A spread onto a property list with distinct keys gives distinct keys. -/
theorem nodup_keys_spreadInto {α : Type} (props base : List (String × α))
    (h : (base.map Prod.fst).Nodup) : ((spreadInto base props).map Prod.fst).Nodup := by
  induction props generalizing base with
  | nil => exact h
  | cons kw rest ih => exact ih _ (nodup_keys_setField base kw.1 kw.2 h)

/-- In a property list with distinct keys every entry is the one a field read finds. -/
theorem lookupField_of_mem {α : Type} (l : List (String × α)) (k : String) (v : α)
    (hn : (l.map Prod.fst).Nodup) (hm : (k, v) ∈ l) : lookupField l k = some v := by
  induction l with
  | nil => cases hm
  | cons kw rest ih =>
    obtain ⟨k1, w⟩ := kw
    rw [List.map_cons, List.nodup_cons] at hn
    rcases List.mem_cons.1 hm with he | hr
    · cases he
      simp [lookupField]
    · have hne : k1 ≠ k := by
        intro e
        subst e
        exact hn.1 (List.mem_map.2 ⟨(k1, v), hr, rfl⟩)
      simp only [lookupField, hne, if_false]
      exact ih hn.2 hr

/-- A spread of properties with distinct keys sets each of them. -/
theorem lookupField_spreadInto_of_some {α : Type} (props base : List (String × α))
    (k : String) (v : α) (hn : (props.map Prod.fst).Nodup)
    (h : lookupField props k = some v) : lookupField (spreadInto base props) k = some v := by
  induction props generalizing base with
  | nil => simp [lookupField] at h
  | cons kw rest ih =>
    obtain ⟨k1, w⟩ := kw
    rw [List.map_cons, List.nodup_cons] at hn
    have hstep : lookupField (spreadInto base ((k1, w) :: rest)) k
        = lookupField (spreadInto (setField base k1 w) rest) k := rfl
    rw [hstep]
    by_cases hk : k1 = k
    · subst hk
      have hv : w = v := by simpa [lookupField] using h
      subst hv
      have hnone : lookupField rest k1 = none := by
        rw [lookupField_eq_none_iff]
        intro u hu
        exact hn.1 (List.mem_map.2 ⟨(k1, u), hu, rfl⟩)
      rw [lookupField_spreadInto_of_none rest _ k1 hnone, lookupField_setField_self]
    · have h2 : lookupField rest k = some v := by simpa [lookupField, hk] using h
      exact ih _ hn.2 h2

/-- The headers `authedFetch` hands to `apiFetch` have distinct keys. -/
theorem nodup_authed_headers (env : Env) (s : Session) (opts : Opts) :
    (((authedOpts env s opts).headers.getD []).map Prod.fst).Nodup := by
  show ((setField (spreadInto [] (opts.headers.getD [])) "Authorization" _).map Prod.fst).Nodup
  exact nodup_keys_setField _ _ _ (nodup_keys_spreadInto _ _ List.nodup_nil)

/-! ## C10 -/

/-- C10: for every session and every options object, the request `authedFetch` hands to
`fetch` has the header `Authorization` with the value `Bearer ` followed by the text of
`tokens?.accessToken`, the access token of the session at the call: `Bearer a` for the
access token `a` (`Bearer a1` in the session of `pairA1`), `Bearer undefined` when the
session is absent; and no other `Authorization` entry is in the request, whatever
headers the caller supplied. -/
theorem C10_bearer_header_attached (env : Env) (net netRevoke : Net) (s : Session)
    (path : String) (opts : Opts) :
    (authedFetch env net netRevoke s path opts).sent.head?
      = some (apiFetchRequest env path (authedOpts env s opts)) ∧
    lookupField (apiFetchRequest env path (authedOpts env s opts)).headers "Authorization"
      = some ("Bearer " ++ toJsString env (s.tokens.getField "accessToken")) ∧
    (∀ a, s.tokens.getField "accessToken" = some (.str a) →
      lookupField (apiFetchRequest env path (authedOpts env s opts)).headers "Authorization"
        = some ("Bearer " ++ a)) ∧
    (∀ v, ("Authorization", v) ∈ (apiFetchRequest env path (authedOpts env s opts)).headers →
      v = "Bearer " ++ toJsString env (s.tokens.getField "accessToken")) ∧
    lookupField (apiFetchRequest env path
      (authedOpts env { stored := none, tokens := .null } opts)).headers "Authorization"
      = some "Bearer undefined" ∧
    lookupField (apiFetchRequest env path (authedOpts env sessionA1 opts)).headers
      "Authorization" = some "Bearer a1" := by
  have hlook : ∀ t : Session,
      lookupField (apiFetchRequest env path (authedOpts env t opts)).headers "Authorization"
        = some ("Bearer " ++ toJsString env (t.tokens.getField "accessToken")) := by
    intro t
    show lookupField (spreadInto [("Content-Type", "application/json")]
      ((authedOpts env t opts).headers.getD [])) "Authorization" = _
    apply lookupField_spreadInto_of_some _ _ _ _ (nodup_authed_headers env t opts)
    show lookupField (setField (spreadInto [] (opts.headers.getD [])) "Authorization" _)
      "Authorization" = _
    rw [lookupField_setField_self]
    rfl
  refine ⟨?_, hlook s, ?_, ?_, ?_, ?_⟩
  · unfold authedFetch
    by_cases h : is401 ((apiFetchOutcome
        (net (apiFetchRequest env path (authedOpts env s opts)))).getField "status") = true
    · simp [h]
    · simp [h]
  · intro a ha
    rw [hlook s, ha]
    rfl
  · intro v hv
    have hn : ((apiFetchRequest env path (authedOpts env s opts)).headers.map
        Prod.fst).Nodup := by
      show ((spreadInto [("Content-Type", "application/json")]
        ((authedOpts env s opts).headers.getD [])).map Prod.fst).Nodup
      exact nodup_keys_spreadInto _ _ (List.nodup_singleton _)
    have h1 := lookupField_of_mem _ _ _ hn hv
    rw [hlook s] at h1
    exact (Option.some.inj h1).symm
  · rw [hlook]
    rfl
  · rw [hlook]
    rfl

/-- C10, witness: in the session of `pairA1`, a caller that supplies its own
`Authorization` header sends `Bearer a1`. -/
theorem C10_bearer_header_attached_witness :
    lookupField (apiFetchRequest fixtureEnv "/documents" (authedOpts fixtureEnv sessionA1
      { method := none, headers := some [("Authorization", "Basic abc")],
        body := none })).headers "Authorization" = some "Bearer a1" :=
  (C10_bearer_header_attached fixtureEnv (answering 200 none) (answering 200 none) sessionA1
    "/documents"
    { method := none, headers := some [("Authorization", "Basic abc")], body := none }).2.2.1
    "a1" rfl

/-! ## C11 -/

/-- C11: for every path, options object, session and network, the value `authedFetch`
returns is exactly the value `apiFetch` returns, on the same network, for the same path
and the options with the headers `{ ...(opts.headers || {}), Authorization }`, whether
that value is a success, a failure or the outcome of status 401. -/
theorem C11_authedFetch_returns_apiFetch_value (env : Env) (net netRevoke : Net)
    (s : Session) (path : String) (opts : Opts) :
    (authedFetch env net netRevoke s path opts).result =
      apiFetch env net path
        { method := opts.method
          headers := some (setField (spreadInto [] (opts.headers.getD [])) "Authorization"
            ("Bearer " ++ toJsString env (getAccessToken s)))
          body := opts.body } := by
  rw [authedFetch_result]
  rfl

/-! ## C12 -/

/-- C12: for every response of status 204 or 202, whatever `res.json()` would give for
its body, `apiFetch` returns the marker `{ ok: true }`, the same for every body, and the
test `res?.error` of the callers does not read it as a failure. -/
theorem C12_no_content_outcome (status : Nat) (json : Option JVal)
    (h : status = 204 ∨ status = 202) :
    apiFetchOutcome (.http status json) = .obj [("ok", .bool true)] ∧
    apiFetchOutcome (.http status json) = apiFetchOutcome (.http status none) ∧
    truthy ((apiFetchOutcome (.http status json)).getField "error") = false := by
  have h1 : ∀ j, apiFetchOutcome (.http status j) = .obj [("ok", .bool true)] := by
    intro j
    simp [apiFetchOutcome, h]
  rw [h1 json, h1 none]
  exact ⟨rfl, rfl, rfl⟩

/-- C12, witness: HTTP 204 with the error-shaped body `{ error: "boom", status: 500 }`. -/
theorem C12_no_content_outcome_witness :
    apiFetchOutcome (.http 204 (some (.obj [("error", .str "boom"), ("status", .num 500)])))
      = .obj [("ok", .bool true)] ∧
    apiFetchOutcome (.http 204 (some (.obj [("error", .str "boom"), ("status", .num 500)])))
      = apiFetchOutcome (.http 204 none) ∧
    truthy ((apiFetchOutcome
      (.http 204 (some (.obj [("error", .str "boom"), ("status", .num 500)])))).getField
      "error") = false :=
  C12_no_content_outcome 204 (some (.obj [("error", .str "boom"), ("status", .num 500)]))
    (Or.inl rfl)

/-! ## C13 -/

/-- C13: when `fetch` rejects with an error of message `m`, `apiFetch` returns exactly
`{ error: true, status: 0, message: m }`; and for a response received with a non-zero
HTTP status and a body without a `status` field of its own, the `status` of the outcome
is not 0. -/
theorem C13_status_zero_only_for_transport_failure (env : Env) (net : Net) (path : String)
    (opts : Opts) :
    (∀ message, net (apiFetchRequest env path opts) = .rejected message →
      apiFetch env net path opts
        = .obj [("error", .bool true), ("status", .num 0), ("message", .str message)]) ∧
    (∀ status json, net (apiFetchRequest env path opts) = .http status json →
      status ≠ 0 → lookupField (json.getD .null).ownProps "status" = none →
      (apiFetch env net path opts).getField "status" ≠ some (.num 0)) := by
  constructor
  · intro message h
    unfold apiFetch
    rw [h]
    rfl
  · intro status json h hne hbody hzero
    unfold apiFetch at hzero
    rw [h] at hzero
    rcases status_of_outcome_cases _ _ hzero with ⟨message, hr, _⟩ | ⟨st, js, hr, hv⟩
    · cases hr
    · have hst : status = st := by injection hr
      have hjs : json = js := by injection hr
      subst hst hjs
      rcases hv with hv | hv
      · have h0 : ((0 : Nat) : Int) = (status : Int) := JVal.num.inj hv
        have h1 : status = 0 := by exact_mod_cast h0.symm
        exact hne h1
      · exact (lookupField_eq_none_iff _ _).1 hbody _ hv

/-- C13, witness: the network is unreachable and `fetch` rejects with the message
`Failed to fetch`. -/
theorem C13_status_zero_only_for_transport_failure_witness :
    apiFetch fixtureEnv (unreachable "Failed to fetch") "/documents" plainOpts
      = .obj [("error", .bool true), ("status", .num 0), ("message", .str "Failed to fetch")] :=
  (C13_status_zero_only_for_transport_failure fixtureEnv (unreachable "Failed to fetch")
    "/documents" plainOpts).1 "Failed to fetch" rfl

/-! ## C14 -/

/-- C14: for every error status and every JSON-object body (an object has each of its
keys once), every field of the body is a field of the outcome of `apiFetch`, with the
same value; so a `fieldErrors` list of the body is the `fieldErrors` of the outcome. -/
theorem C14_body_fields_exposed (status : Nat) (fields : List (String × JVal))
    (hok : Response.ok status = false) (hkeys : (fields.map Prod.fst).Nodup)
    (key : String) (v : JVal) (hfield : (key, v) ∈ fields) :
    (apiFetchOutcome (.http status (some (.obj fields)))).getField key = some v := by
  rw [apiFetchOutcome_error status _ hok]
  show lookupField (spreadInto _ (if (JVal.obj fields).truthy then (JVal.obj fields).ownProps
    else [])) key = some v
  have hprops : (if (JVal.obj fields).truthy then (JVal.obj fields).ownProps else [])
      = fields := rfl
  rw [hprops]
  exact lookupField_spreadInto_of_some fields _ key v hkeys
    (lookupField_of_mem fields key v hkeys hfield)

/-- C14, witness: the scenario of the specification, HTTP 400 with the body
`{ fieldErrors: [{ field: "title", message: "must not be blank" }] }`. -/
theorem C14_body_fields_exposed_witness :
    (apiFetchOutcome (.http 400 (some (.obj [("fieldErrors",
      .arr [.obj [("field", .str "title"), ("message", .str "must not be blank")]])])))).getField
      "fieldErrors"
      = some (.arr [.obj [("field", .str "title"), ("message", .str "must not be blank")]]) :=
  C14_body_fields_exposed 400
    [("fieldErrors", .arr [.obj [("field", .str "title"), ("message", .str "must not be blank")]])]
    rfl (by simp) "fieldErrors" _ (List.mem_singleton.2 rfl)

/-! ## C15 -/

/-- C15: for every session and every network answering the revocation call, `logout`
runs to its end with the session absent; it hands at most one request to `fetch`, a
`POST` to `/auth/logout` whose body is the text of `{ refreshToken }` with the truthy
refresh token of the session, and none when the session has no truthy refresh token;
the session it leaves and the requests it makes are the same whatever the network
answers, an answer of status 401 included. -/
theorem C15_logout_clears_session (env : Env) (net : Net) (s : Session) :
    (logout env net s).final.absent ∧
    (logout env net s).sent.length ≤ 1 ∧
    (∀ req, req ∈ (logout env net s).sent →
      req.url = API_BASE env ++ "/auth/logout" ∧ req.method = some "POST" ∧
      ∃ rt, s.tokens.getField "refreshToken" = some rt ∧ rt.truthy = true ∧
        req.body = some (env.stringify (.obj [("refreshToken", rt)]))) ∧
    (truthy (s.tokens.getField "refreshToken") = false → (logout env net s).sent = []) ∧
    (∀ other : Net, (logout env other s).final = (logout env net s).final ∧
      (logout env other s).sent = (logout env net s).sent) := by
  refine ⟨?_, ?_, ?_, ?_, ?_⟩
  · rw [logout_final]
    exact clearSession_absent s
  · rw [logout_sent]
    cases logoutRequest env s <;> simp
  · intro req hreq
    rw [logout_sent] at hreq
    unfold logoutRequest at hreq
    by_cases hrt : truthy (s.tokens.getField "refreshToken") = true
    · simp only [hrt, if_true, Option.toList, List.mem_singleton] at hreq
      subst hreq
      refine ⟨rfl, rfl, ?_⟩
      cases hf : s.tokens.getField "refreshToken" with
      | none => rw [hf] at hrt; simp [truthy] at hrt
      | some rt =>
        rw [hf] at hrt
        exact ⟨rt, rfl, hrt, rfl⟩
    · simp [hrt] at hreq
  · intro hrt
    rw [logout_sent]
    simp [logoutRequest, hrt]
  · intro other
    rw [logout_final, logout_final, logout_sent, logout_sent]
    exact ⟨rfl, rfl⟩

/-- C15, witness: `logout` in the session of `pairA1`, the revocation call answered with
HTTP 401. -/
theorem C15_logout_clears_session_witness :
    (logout fixtureEnv (answering 401 none) sessionA1).final.absent ∧
    (logout fixtureEnv (answering 401 none) sessionA1).sent.length ≤ 1 ∧
    (logout fixtureEnv (answering 401 none) noSession).sent = [] :=
  ⟨(C15_logout_clears_session fixtureEnv (answering 401 none) sessionA1).1,
   (C15_logout_clears_session fixtureEnv (answering 401 none) sessionA1).2.1,
   (C15_logout_clears_session fixtureEnv (answering 401 none) noSession).2.2.2.1 rfl⟩

/-! ## C16 -/

/-- C16: the initial read of the session gives a value for every content of the backing
store; it gives `null` when the `kb_tokens` entry is missing (`JSON.parse` reading the
text `null` as `null`), and `null` whenever `JSON.parse` fails on the stored text. -/
theorem C16_initial_read_degrades_to_null (env : Env)
    (hnull : env.parse "null" = some .null) :
    initialTokens env none = .null ∧
    ∀ text, env.parse text = none → initialTokens env (some text) = .null := by
  constructor
  · simp [initialTokens, hnull, JVal.truthy]
  · intro text h
    simp [initialTokens, h]

/-- C16, witness: no entry, and the corrupt entry `not json`. -/
theorem C16_initial_read_degrades_to_null_witness :
    initialTokens fixtureEnv none = .null ∧
    initialTokens fixtureEnv (some "not json") = .null :=
  ⟨(C16_initial_read_degrades_to_null fixtureEnv rfl).1,
   (C16_initial_read_degrades_to_null fixtureEnv rfl).2 "not json" rfl⟩

/-! ## C17 -/

/-- C17: for every response of a status other than 202 and 204 whose body fails to
parse, `apiFetch` returns `null` when the status is a success status and exactly
`{ error: true, status: s }` when the status `s` is an error status. -/
theorem C17_unparseable_body_is_absent (status : Nat) (h202 : status ≠ 202)
    (h204 : status ≠ 204) :
    (Response.ok status = true → apiFetchOutcome (.http status none) = .null) ∧
    (Response.ok status = false →
      apiFetchOutcome (.http status none)
        = .obj [("error", .bool true), ("status", .num status)]) := by
  constructor
  · intro hok
    rw [apiFetchOutcome_success status none hok h202 h204]
    rfl
  · intro hok
    rw [apiFetchOutcome_error status none hok]
    rfl

/-- C17, witness: HTTP 200 and HTTP 502 with an unparseable body. -/
theorem C17_unparseable_body_is_absent_witness :
    apiFetchOutcome (.http 200 none) = .null ∧
    apiFetchOutcome (.http 502 none) = .obj [("error", .bool true), ("status", .num 502)] :=
  ⟨(C17_unparseable_body_is_absent 200 (by decide) (by decide)).1 rfl,
   (C17_unparseable_body_is_absent 502 (by decide) (by decide)).2 rfl⟩

/-! ## C18 -/

/-- C18: the headers of the request of `apiFetch` are the default
`Content-Type: application/json` with the headers of the caller (an object, each key
once) written over it: every header of the caller is in the request with the value of
the caller, so a `Content-Type` of the caller replaces the default; without a
`Content-Type` key of the caller, and so also without headers, the request has
`Content-Type: application/json`; and the request has no other header. -/
theorem C18_caller_headers_over_default (env : Env) (path : String) (opts : Opts)
    (hkeys : ((opts.headers.getD []).map Prod.fst).Nodup) :
    (∀ key v, (key, v) ∈ opts.headers.getD [] →
      lookupField (apiFetchRequest env path opts).headers key = some v) ∧
    (lookupField (opts.headers.getD []) "Content-Type" = none →
      lookupField (apiFetchRequest env path opts).headers "Content-Type"
        = some "application/json") ∧
    (∀ key v, lookupField (apiFetchRequest env path opts).headers key = some v →
      (key, v) ∈ opts.headers.getD [] ∨ (key = "Content-Type" ∧ v = "application/json")) := by
  refine ⟨?_, ?_, ?_⟩
  · intro key v hm
    exact lookupField_spreadInto_of_some _ _ key v hkeys
      (lookupField_of_mem _ key v hkeys hm)
  · intro hnone
    show lookupField (spreadInto [("Content-Type", "application/json")]
      (opts.headers.getD [])) "Content-Type" = _
    rw [lookupField_spreadInto_of_none _ _ _ hnone]
    rfl
  · intro key v h
    rcases lookupField_spreadInto_cases _ _ _ _ h with hm | hb
    · exact Or.inl hm
    · right
      by_cases hk : "Content-Type" = key
      · subst hk
        have hv : lookupField [("Content-Type", "application/json")] "Content-Type"
            = some "application/json" := rfl
        rw [hv] at hb
        exact ⟨rfl, (Option.some.inj hb).symm⟩
      · simp [lookupField, hk] at hb

/-- C18, witness: the caller supplies `Content-Type: text/plain` and `X-Trace: 1`. -/
theorem C18_caller_headers_over_default_witness :
    lookupField (apiFetchRequest fixtureEnv "/documents"
      { method := none, headers := some [("Content-Type", "text/plain"), ("X-Trace", "1")],
        body := none }).headers "Content-Type" = some "text/plain" :=
  (C18_caller_headers_over_default fixtureEnv "/documents"
    { method := none, headers := some [("Content-Type", "text/plain"), ("X-Trace", "1")],
      body := none } (by decide)).1 "Content-Type" "text/plain" (by simp)

/-! ## C19 -/

/-- C19: the clear step of `logout`, done twice, leaves the session absent after the
first and after the second time, the second changing nothing; on a session that is
already absent it changes nothing. -/
theorem C19_clear_idempotent (s : Session) :
    (clearSession s).absent ∧
    (clearSession (clearSession s)).absent ∧
    clearSession (clearSession s) = clearSession s ∧
    (s.absent → clearSession s = s) := by
  refine ⟨clearSession_absent s, clearSession_absent _, rfl, ?_⟩
  intro h
  cases s with
  | mk stored tokens =>
    obtain ⟨h1, h2⟩ := h
    simp only at h1 h2
    subst h1 h2
    rfl

/-- C19, witness: the clear step on the empty session store. -/
theorem C19_clear_idempotent_witness :
    clearSession noSession = noSession :=
  (C19_clear_idempotent noSession).2.2.2 ⟨rfl, rfl⟩

/-! ## C20 -/

/-- C20, failing inputs: for the transport failure
`{ error: true, status: 0, message: "Failed to fetch" }` and for the outcome
`{ error: true, status: 500 }` of an error response with an empty body, the `msg` of
`GeneralError` is the boolean `true` of the `error` field, for which React shows no
text: neither the message nor `Something went wrong` is surfaced. -/
theorem C20_marker_shadows_message (env : Env) :
    GeneralError (apiFetchOutcome (.rejected "Failed to fetch")) = .box (some (.bool true)) ∧
    (GeneralError (apiFetchOutcome (.rejected "Failed to fetch"))).text env = some "" ∧
    GeneralError (apiFetchOutcome (.http 500 none)) = .box (some (.bool true)) ∧
    (GeneralError (apiFetchOutcome (.http 500 none))).text env = some "" :=
  ⟨rfl, rfl, rfl, rfl⟩

end KbRag
